import Mathlib

/-!
Verification of the scope and symbol-resolution data structures of
compiler/next/include/chpl/resolution/scope-types.h.

The external types `ID` (chpl::ID) and `UniqueString` are opaque, comparable,
hashable handles; we model both as `Nat`.  A default-constructed `ID` is the
empty ID, modelled as `0`.  `owned<std::vector<ID>>` fields that may be null
are modelled as `Option (List ID)` with `none` for the null pointer.
-/

/-- Model of chpl::ID: an opaque comparable identity for a source construct. -/
abbrev ID := Nat

/-- A default-constructed (empty) ID, as produced by `ID()`. -/
def ID.emptyId : ID := 0

/-- Model of chpl::UniqueString: an interned name handle with handle equality. -/
abbrev UniqueString := Nat

/-- `OwnedIdsWithName`: collects the IDs declared with one name.
`id_` holds the single ID; if more than one ID arrives, `moreIds_` holds all
of them (with `id_` redundantly storing the first) and is otherwise null. -/
structure OwnedIdsWithName where
  id_ : ID
  moreIds_ : Option (List ID)
deriving DecidableEq, Repr

/-- The one-argument constructor `OwnedIdsWithName(ID id)`:
stores the id inline, `moreIds_ == nullptr`. -/
def OwnedIdsWithName.mkOne (id : ID) : OwnedIdsWithName :=
  { id_ := id, moreIds_ := none }

/-- `OwnedIdsWithName::appendId`: if `moreIds_` is null, allocate the vector,
push the inline id into it, then push the new id; otherwise push directly. -/
def OwnedIdsWithName.appendId (o : OwnedIdsWithName) (newId : ID) :
    OwnedIdsWithName :=
  match o.moreIds_ with
  | none => { o with moreIds_ := some ([o.id_] ++ [newId]) }
  | some l => { o with moreIds_ := some (l ++ [newId]) }

/-- An `OwnedIdsWithName` built through the public interface: the one-ID
constructor followed by one `appendId` call per element of `rest`. -/
def OwnedIdsWithName.build (first : ID) (rest : List ID) : OwnedIdsWithName :=
  rest.foldl OwnedIdsWithName.appendId (OwnedIdsWithName.mkOne first)

/-- `OwnedIdsWithName::operator==`: first ids equal, null-ness of `moreIds_`
equal, and when both vectors exist, the vectors element-wise equal. -/
def OwnedIdsWithName.beq (a b : OwnedIdsWithName) : Bool :=
  if a.id_ != b.id_ then false
  else if a.moreIds_.isNone != b.moreIds_.isNone then false
  else if a.moreIds_.isNone && b.moreIds_.isNone then true
  else a.moreIds_.getD [] == b.moreIds_.getD []

/-- `BorrowedIdsWithName`: a lightweight view of the ids of an
`OwnedIdsWithName`.  `moreIds_` models the pointer to the owner's vector:
`none` for null, `some l` for a pointer to a vector holding `l`. -/
structure BorrowedIdsWithName where
  id_ : ID
  moreIds_ : Option (List ID)
deriving DecidableEq, Repr

/-- The default constructor `BorrowedIdsWithName()`: default-constructed
(empty) `id_`, null `moreIds_`. -/
def BorrowedIdsWithName.emptyView : BorrowedIdsWithName :=
  { id_ := ID.emptyId, moreIds_ := none }

/-- The one-ID constructor `BorrowedIdsWithName(ID id)`. -/
def BorrowedIdsWithName.ofId (id : ID) : BorrowedIdsWithName :=
  { id_ := id, moreIds_ := none }

/-- The constructor `BorrowedIdsWithName(const OwnedIdsWithName&)`:
copies `id_` and borrows the owner's vector pointer. -/
def BorrowedIdsWithName.fromOwned (o : OwnedIdsWithName) :
    BorrowedIdsWithName :=
  { id_ := o.id_, moreIds_ := o.moreIds_ }

/-- `BorrowedIdsWithName::numIds`: 1 when `moreIds_` is null, else the
size of the borrowed vector. -/
def BorrowedIdsWithName.numIds (b : BorrowedIdsWithName) : Nat :=
  match b.moreIds_ with
  | none => 1
  | some l => l.length

/-- `BorrowedIdsWithName::id(i)` with its debug assertion modelled:
`i == 0` returns `id_`; otherwise the assertion
`assert(moreIds_ && 0 <= i && i < moreIds_->size())` must hold and the i-th
vector element is returned; an assertion failure is `none`. -/
def BorrowedIdsWithName.idAt (b : BorrowedIdsWithName) (i : Nat) : Option ID :=
  if i = 0 then some b.id_
  else
    match b.moreIds_ with
    | none => none
    | some l => if i < l.length then l[i]? else none

/-- The iterator range `[begin(), end())` of a `BorrowedIdsWithName`:
just `id_` when `moreIds_` is null, else the whole borrowed vector
(begin points at its first element and end one past its last). -/
def BorrowedIdsWithName.range (b : BorrowedIdsWithName) : List ID :=
  match b.moreIds_ with
  | none => [b.id_]
  | some l => l

/-- The views obtainable through the public constructors: the default
constructor, the one-ID constructor, or borrowing an `OwnedIdsWithName`
that was itself built through its public interface. -/
inductive ViewOK : BorrowedIdsWithName → Prop where
  | empty : ViewOK BorrowedIdsWithName.emptyView
  | one (id : ID) : ViewOK (BorrowedIdsWithName.ofId id)
  | owned (first : ID) (rest : List ID) :
      ViewOK (BorrowedIdsWithName.fromOwned (OwnedIdsWithName.build first rest))

/-- `Scope::declared_` is a `DeclMap` (name → OwnedIdsWithName, unique keys);
we model the map as an association list probed by key. Only the `declared_`
field participates in the claims about lookup. -/
structure Scope where
  declared_ : List (UniqueString × OwnedIdsWithName)

/-- The `declared_.find(name)` probe of the DeclMap. -/
def Scope.findDeclared (s : Scope) (name : UniqueString) :
    Option OwnedIdsWithName :=
  (s.declared_.find? (fun p => p.1 == name)).map Prod.snd

/-- `Scope::lookupInScope`: on a hit, push a borrowed view of the bucket
onto the caller's accumulator and return true; on a miss return false.
The returned pair is (accumulator after the call, return value). -/
def Scope.lookupInScope (s : Scope) (name : UniqueString)
    (result : List BorrowedIdsWithName) :
    List BorrowedIdsWithName × Bool :=
  match s.findDeclared name with
  | some owned => (result ++ [BorrowedIdsWithName.fromOwned owned], true)
  | none => (result, false)

/-- `VisibilitySymbols::Kind`. -/
inductive VisibilitySymbols.Kind where
  | SYMBOL_ONLY
  | ALL_CONTENTS
  | ONLY_CONTENTS
  | CONTENTS_EXCEPT
deriving DecidableEq, BEq, Repr

/-- `VisibilitySymbols`: the normalized form of one use/import clause.
The four-argument public constructor is the anonymous constructor `mk`,
which (like the C++ one) stores every argument verbatim. -/
structure VisibilitySymbols where
  symbolId : ID
  kind : VisibilitySymbols.Kind
  isPrivate : Bool
  names : List (UniqueString × UniqueString)
deriving DecidableEq, Repr

/-- The default constructor `VisibilitySymbols()`: empty symbolId,
SYMBOL_ONLY, private, no names. -/
def VisibilitySymbols.defaultValue : VisibilitySymbols :=
  { symbolId := ID.emptyId, kind := VisibilitySymbols.Kind.SYMBOL_ONLY,
    isPrivate := true, names := [] }

/-- `VisibilitySymbols::operator==`: compares `symbolId`, `kind` and
`names` — and nothing else. -/
def VisibilitySymbols.beq (a b : VisibilitySymbols) : Bool :=
  a.symbolId == b.symbolId && decide (a.kind = b.kind) && a.names == b.names

/-- `VisibilitySymbols::swap`: swaps `symbolId`, `kind` and `names` with
the other object.  Returns the pair (this after, other after). -/
def VisibilitySymbols.swap (a b : VisibilitySymbols) :
    VisibilitySymbols × VisibilitySymbols :=
  ({ symbolId := b.symbolId, kind := b.kind, isPrivate := a.isPrivate,
     names := b.names },
   { symbolId := a.symbolId, kind := a.kind, isPrivate := b.isPrivate,
     names := a.names })

/-- The invariant the specification claims for `VisibilitySymbols`, stated
from the spec's words (the code has no such check): ALL_CONTENTS has empty
names; CONTENTS_EXCEPT has no renaming; SYMBOL_ONLY has at most one pair. -/
def VisibilitySymbols.claimedInvariant (v : VisibilitySymbols) : Bool :=
  match v.kind with
  | VisibilitySymbols.Kind.ALL_CONTENTS => v.names.isEmpty
  | VisibilitySymbols.Kind.CONTENTS_EXCEPT =>
      v.names.all (fun p => p.1 == p.2)
  | VisibilitySymbols.Kind.SYMBOL_ONLY => v.names.length ≤ 1
  | VisibilitySymbols.Kind.ONLY_CONTENTS => true

/-- Element-wise equality of two `std::vector<VisibilitySymbols>` values,
which uses `VisibilitySymbols::operator==` on the elements. -/
def visListBeq : List VisibilitySymbols → List VisibilitySymbols → Bool
  | [], [] => true
  | a :: moreA, b :: moreB => a.beq b && visListBeq moreA moreB
  | _, _ => false

/-- `ResolvedVisibilityScope`: a scope pointer (modelled by its address)
and the ordered visibility clauses it contains. -/
structure ResolvedVisibilityScope where
  scope : Nat
  visibilityClauses : List VisibilitySymbols

/-- `ResolvedVisibilityScope::operator==`: same scope pointer and
element-wise equal clause vectors. -/
def ResolvedVisibilityScope.beq (a b : ResolvedVisibilityScope) : Bool :=
  a.scope == b.scope && visListBeq a.visibilityClauses b.visibilityClauses

/-- `InnermostMatch::MatchesFound`. -/
inductive MatchesFound where
  | ZERO
  | ONE
  | MANY
deriving DecidableEq, BEq, Repr

/-- `InnermostMatch`: id plus match-cardinality. -/
structure InnermostMatch where
  id : ID
  found : MatchesFound
deriving DecidableEq, Repr

/-- `InnermostMatch::operator==`: compares `id` and `found`. -/
def InnermostMatch.beq (a b : InnermostMatch) : Bool :=
  a.id == b.id && decide (a.found = b.found)

/-- `InnermostMatch::swap`: swaps `id` and `found` with the other object.
Returns the pair (this after, other after). -/
def InnermostMatch.swap (a b : InnermostMatch) :
    InnermostMatch × InnermostMatch :=
  ({ id := b.id, found := b.found }, { id := a.id, found := a.found })

/-- `chpl::update<InnermostMatch>::operator()(keep, addin)`: if the two are
equal (by `operator==`) return false and leave both alone; otherwise swap
them and return true.  Returns (result, keep after, addin after). -/
def updateInnermostMatch (keep addin : InnermostMatch) :
    Bool × InnermostMatch × InnermostMatch :=
  if keep.beq addin then (false, keep, addin)
  else
    let s := keep.swap addin
    (true, s.1, s.2)

/-! ## Helper lemmas -/

theorem OwnedIdsWithName.foldl_appendId_some (a : ID) (l xs : List ID) :
    List.foldl OwnedIdsWithName.appendId
        { id_ := a, moreIds_ := some l } xs =
      { id_ := a, moreIds_ := some (l ++ xs) } := by
  induction xs generalizing l with
  | nil => simp
  | cons x xs ih =>
      simp only [List.foldl_cons, OwnedIdsWithName.appendId]
      rw [ih]
      simp

/-- The shape of an `OwnedIdsWithName` built through the public interface:
no appends leaves the inline form; otherwise `moreIds_` holds the full
sequence with the constructor's id first (and `id_` redundantly the first). -/
theorem OwnedIdsWithName.build_nil (first : ID) :
    OwnedIdsWithName.build first [] = { id_ := first, moreIds_ := none } := by
  rfl

theorem OwnedIdsWithName.build_cons (first x : ID) (xs : List ID) :
    OwnedIdsWithName.build first (x :: xs) =
      { id_ := first, moreIds_ := some (first :: x :: xs) } := by
  simp only [OwnedIdsWithName.build, List.foldl_cons, OwnedIdsWithName.mkOne,
    OwnedIdsWithName.appendId]
  rw [OwnedIdsWithName.foldl_appendId_some]
  simp

/-- Borrowing a sequence-backed bucket built through the public interface
yields a view of the whole id sequence, first id inline. -/
theorem BorrowedIdsWithName.fromOwned_build_cons (first x : ID)
    (xs : List ID) :
    BorrowedIdsWithName.fromOwned (OwnedIdsWithName.build first (x :: xs)) =
      { id_ := first, moreIds_ := some (first :: x :: xs) } := by
  rw [OwnedIdsWithName.build_cons]
  rfl

theorem InnermostMatch.beq_iff (a b : InnermostMatch) :
    a.beq b = true ↔ a = b := by
  cases a; cases b
  simp [InnermostMatch.beq, InnermostMatch.mk.injEq]

/-! ## Claim theorems -/

/-- C1: building an OwnedIdsWithName via the one-ID constructor followed by
appendId calls and then taking a BorrowedIdsWithName view yields
numIds() equal to the number of installed ids and id(i) equal to the i-th
installed id, in installation order. -/
theorem claim1_owned_append_view (first : ID) (rest : List ID) :
    (BorrowedIdsWithName.fromOwned (OwnedIdsWithName.build first rest)).numIds
      = (first :: rest).length ∧
    ∀ i : Nat, i < (first :: rest).length →
      (BorrowedIdsWithName.fromOwned (OwnedIdsWithName.build first rest)).idAt i
        = (first :: rest)[i]? := by
  cases rest with
  | nil =>
      refine ⟨rfl, ?_⟩
      intro i hi
      have h0 : i = 0 := by
        simpa using Nat.lt_one_iff.mp (by simpa using hi)
      subst h0
      rfl
  | cons x xs =>
      rw [OwnedIdsWithName.build_cons]
      refine ⟨rfl, ?_⟩
      intro i hi
      by_cases h0 : i = 0
      · subst h0
        rfl
      · simp only [BorrowedIdsWithName.fromOwned, BorrowedIdsWithName.idAt,
          if_neg h0]
        simp only [List.length_cons] at hi ⊢
        rw [if_pos (by simpa using hi)]

/-- C1 witness: claim1_owned_append_view applied at a concrete input. -/
theorem claim1_witness :
    (2 : Nat) < ((10 : ID) :: [20, 30]).length ∧
    (BorrowedIdsWithName.fromOwned (OwnedIdsWithName.build 10 [20, 30])).idAt 2
      = ((10 : ID) :: [20, 30])[2]? :=
  ⟨by decide, (claim1_owned_append_view 10 [20, 30]).2 2 (by decide)⟩

/-- C2: the InnermostMatch merge hook returns false and leaves keep
untouched when keep equals addin, and otherwise returns true with keep
taking addin's original contents. -/
theorem claim2_update_innermost (keep addin : InnermostMatch) :
    (keep = addin → updateInnermostMatch keep addin = (false, keep, addin)) ∧
    (keep ≠ addin → updateInnermostMatch keep addin = (true, addin, keep)) := by
  constructor
  · intro h
    rw [updateInnermostMatch, if_pos ((InnermostMatch.beq_iff keep addin).mpr h)]
  · intro h
    rw [updateInnermostMatch,
      if_neg (fun hb => h ((InnermostMatch.beq_iff keep addin).mp hb))]
    cases keep
    cases addin
    rfl

/-- C2 witness: claim2_update_innermost applied at concrete equal and
unequal inputs. -/
theorem claim2_witness :
    updateInnermostMatch ⟨5, MatchesFound.ONE⟩ ⟨5, MatchesFound.ONE⟩
        = (false, ⟨5, MatchesFound.ONE⟩, ⟨5, MatchesFound.ONE⟩) ∧
    updateInnermostMatch ⟨5, MatchesFound.ONE⟩ ⟨7, MatchesFound.ONE⟩
        = (true, ⟨7, MatchesFound.ONE⟩, ⟨5, MatchesFound.ONE⟩) :=
  ⟨(claim2_update_innermost _ _).1 rfl,
   (claim2_update_innermost _ _).2 (by decide)⟩

/-- C3: lookupInScope on an absent name returns false and leaves the
accumulator exactly as it was; on a present name it returns true and the
accumulator equals its old contents with exactly one borrowed view of that
name's bucket appended at the end. -/
theorem claim3_lookupInScope (s : Scope) (name : UniqueString)
    (result : List BorrowedIdsWithName) :
    (s.findDeclared name = none →
      s.lookupInScope name result = (result, false)) ∧
    ∀ o : OwnedIdsWithName, s.findDeclared name = some o →
      s.lookupInScope name result
        = (result ++ [BorrowedIdsWithName.fromOwned o], true) := by
  constructor
  · intro h
    simp [Scope.lookupInScope, h]
  · intro o h
    simp [Scope.lookupInScope, h]

/-- C3 witness: claim3_lookupInScope applied to a concrete scope, at an
absent and at a present name. -/
theorem claim3_witness :
    (Scope.mk [(1, OwnedIdsWithName.mkOne 10)]).lookupInScope 2
        [BorrowedIdsWithName.ofId 7]
      = ([BorrowedIdsWithName.ofId 7], false) ∧
    (Scope.mk [(1, OwnedIdsWithName.mkOne 10)]).lookupInScope 1
        [BorrowedIdsWithName.ofId 7]
      = ([BorrowedIdsWithName.ofId 7]
          ++ [BorrowedIdsWithName.fromOwned (OwnedIdsWithName.mkOne 10)],
         true) :=
  ⟨(claim3_lookupInScope _ _ _).1 rfl,
   (claim3_lookupInScope _ _ _).2 (OwnedIdsWithName.mkOne 10) rfl⟩

/-- C4: two OwnedIdsWithName buckets built through the public interface
compare equal exactly when their installed id sequences are element-wise
equal; in particular the inline/sequence-backed representation never makes
equal sequences compare unequal nor different sequences compare equal. -/
theorem claim4_owned_eq_iff_sequences (a b : ID) (xs ys : List ID) :
    (OwnedIdsWithName.build a xs).beq (OwnedIdsWithName.build b ys) = true ↔
      a :: xs = b :: ys := by
  cases xs with
  | nil =>
      cases ys with
      | nil =>
          rw [OwnedIdsWithName.build_nil, OwnedIdsWithName.build_nil]
          simp [OwnedIdsWithName.beq]
      | cons y ys =>
          rw [OwnedIdsWithName.build_nil, OwnedIdsWithName.build_cons]
          simp [OwnedIdsWithName.beq]
  | cons x xs =>
      cases ys with
      | nil =>
          rw [OwnedIdsWithName.build_cons, OwnedIdsWithName.build_nil]
          simp [OwnedIdsWithName.beq]
      | cons y ys =>
          rw [OwnedIdsWithName.build_cons, OwnedIdsWithName.build_cons]
          by_cases hab : a = b
          · subst hab
            simp [OwnedIdsWithName.beq]
          · simp [OwnedIdsWithName.beq, hab]

/-- C9: VisibilitySymbols::swap exchanges symbolId, kind and names between
the two objects but leaves both isPrivate fields unchanged. -/
theorem claim9_vis_swap (a b : VisibilitySymbols) :
    ((a.swap b).1.isPrivate = a.isPrivate ∧
     (a.swap b).2.isPrivate = b.isPrivate) ∧
    (a.swap b).1.symbolId = b.symbolId ∧ (a.swap b).2.symbolId = a.symbolId ∧
    (a.swap b).1.kind = b.kind ∧ (a.swap b).2.kind = a.kind ∧
    (a.swap b).1.names = b.names ∧ (a.swap b).2.names = a.names :=
  ⟨⟨rfl, rfl⟩, rfl, rfl, rfl, rfl, rfl, rfl⟩

/-- C5: on any view obtainable through the public constructors, id(0) is
always valid and returns the first id; id(i) for 0 < i < numIds() passes
the debug assertion and returns the i-th id; id(i) with i > 0 on an
inline-only view, or with i >= numIds(), fails the debug assertion. -/
theorem claim5_idAt_contract (v : BorrowedIdsWithName) (hv : ViewOK v) :
    (v.idAt 0 = some v.id_ ∧ v.range[0]? = some v.id_) ∧
    (∀ i : Nat, 0 < i → i < v.numIds →
      v.idAt i = v.range[i]? ∧ (v.idAt i).isSome = true) ∧
    (∀ i : Nat, 0 < i → v.moreIds_ = none → v.idAt i = none) ∧
    (∀ i : Nat, v.numIds ≤ i → v.idAt i = none) := by
  have inline_case : ∀ x : ID,
      v = { id_ := x, moreIds_ := none } →
      (v.idAt 0 = some v.id_ ∧ v.range[0]? = some v.id_) ∧
      (∀ i : Nat, 0 < i → i < v.numIds →
        v.idAt i = v.range[i]? ∧ (v.idAt i).isSome = true) ∧
      (∀ i : Nat, 0 < i → v.moreIds_ = none → v.idAt i = none) ∧
      (∀ i : Nat, v.numIds ≤ i → v.idAt i = none) := by
    intro x hx
    subst hx
    refine ⟨⟨rfl, rfl⟩, ?_, ?_, ?_⟩
    · intro i h1 h2
      exact absurd h2 (by simp [BorrowedIdsWithName.numIds]; omega)
    · intro i h1 _
      simp [BorrowedIdsWithName.idAt, Nat.pos_iff_ne_zero.mp h1]
    · intro i hle
      have h1 : i ≠ 0 := by
        simp [BorrowedIdsWithName.numIds] at hle
        omega
      simp [BorrowedIdsWithName.idAt, h1]
  cases hv with
  | empty => exact inline_case ID.emptyId rfl
  | one id => exact inline_case id rfl
  | owned first rest =>
      cases rest with
      | nil => exact inline_case first rfl
      | cons x xs =>
          rw [BorrowedIdsWithName.fromOwned_build_cons]
          refine ⟨⟨rfl, rfl⟩, ?_, ?_, ?_⟩
          · intro i h1 h2
            simp only [BorrowedIdsWithName.numIds] at h2
            have h0 : ¬ i = 0 := by omega
            refine ⟨?_, ?_⟩
            · simp only [BorrowedIdsWithName.idAt, BorrowedIdsWithName.range,
                if_neg h0]
              rw [if_pos h2]
            · simp only [BorrowedIdsWithName.idAt, if_neg h0]
              rw [if_pos h2]
              simp [List.getElem?_eq_getElem h2]
          · intro i h1 hmore
            simp at hmore
          · intro i hle
            simp only [BorrowedIdsWithName.numIds] at hle
            have h0 : ¬ i = 0 := by
              simp only [List.length_cons] at hle
              omega
            simp only [BorrowedIdsWithName.idAt, if_neg h0]
            rw [if_neg (by omega)]

/-- C5 witness: claim5_idAt_contract applied to a concrete sequence-backed
view built through the public constructors. -/
theorem claim5_witness :
    (BorrowedIdsWithName.fromOwned (OwnedIdsWithName.build 4 [5, 6])).idAt 0
      = some (BorrowedIdsWithName.fromOwned
          (OwnedIdsWithName.build 4 [5, 6])).id_ :=
  (claim5_idAt_contract _ (ViewOK.owned 4 [5, 6])).1.1

/-- C7: on any view obtainable through the public constructors, the
iterator range [begin(), end()) has length numIds(), and its k-th element
equals id(k) for every k < numIds(). -/
theorem claim7_range_matches_ids (v : BorrowedIdsWithName) (hv : ViewOK v) :
    v.range.length = v.numIds ∧
    ∀ k : Nat, k < v.numIds → v.range[k]? = v.idAt k := by
  have inline_case : ∀ x : ID,
      v = { id_ := x, moreIds_ := none } →
      v.range.length = v.numIds ∧
      ∀ k : Nat, k < v.numIds → v.range[k]? = v.idAt k := by
    intro x hx
    subst hx
    refine ⟨rfl, ?_⟩
    intro k hk
    have h0 : k = 0 := by
      simp [BorrowedIdsWithName.numIds] at hk
      omega
    subst h0
    rfl
  cases hv with
  | empty => exact inline_case ID.emptyId rfl
  | one id => exact inline_case id rfl
  | owned first rest =>
      cases rest with
      | nil => exact inline_case first rfl
      | cons x xs =>
          rw [BorrowedIdsWithName.fromOwned_build_cons]
          refine ⟨rfl, ?_⟩
          intro k hk
          simp only [BorrowedIdsWithName.numIds] at hk
          by_cases h0 : k = 0
          · subst h0
            rfl
          · simp only [BorrowedIdsWithName.range, BorrowedIdsWithName.idAt,
              if_neg h0]
            rw [if_pos hk]

/-- C7 witness: claim7_range_matches_ids applied to a concrete
sequence-backed view. -/
theorem claim7_witness :
    (1 : Nat) <
      (BorrowedIdsWithName.fromOwned (OwnedIdsWithName.build 4 [5, 6])).numIds ∧
    (BorrowedIdsWithName.fromOwned (OwnedIdsWithName.build 4 [5, 6])).range[1]?
      = (BorrowedIdsWithName.fromOwned (OwnedIdsWithName.build 4 [5, 6])).idAt 1 :=
  ⟨by decide,
   (claim7_range_matches_ids _ (ViewOK.owned 4 [5, 6])).2 1 (by decide)⟩

/-- C10: a default-constructed BorrowedIdsWithName is not empty at the read
interface: numIds() is 1, id(0) and the iterator range expose one
default-constructed (empty) ID, and no view obtainable through the public
constructors has numIds() equal to zero. -/
theorem claim10_default_view_not_empty :
    BorrowedIdsWithName.emptyView.numIds = 1 ∧
    BorrowedIdsWithName.emptyView.idAt 0 = some ID.emptyId ∧
    BorrowedIdsWithName.emptyView.range = [ID.emptyId] ∧
    ∀ v : BorrowedIdsWithName, ViewOK v → 1 ≤ v.numIds := by
  refine ⟨rfl, rfl, rfl, ?_⟩
  intro v hv
  cases hv with
  | empty => decide
  | one id => simp [BorrowedIdsWithName.ofId, BorrowedIdsWithName.numIds]
  | owned first rest =>
      cases rest with
      | nil => simp [OwnedIdsWithName.build_nil, BorrowedIdsWithName.fromOwned,
          BorrowedIdsWithName.numIds]
      | cons x xs =>
          rw [OwnedIdsWithName.build_cons]
          simp [BorrowedIdsWithName.fromOwned, BorrowedIdsWithName.numIds]

/-- C10 witness: claim10_default_view_not_empty's quantified part applied
to a concrete constructible view. -/
theorem claim10_witness :
    1 ≤ (BorrowedIdsWithName.ofId 3).numIds :=
  claim10_default_view_not_empty.2.2.2 (BorrowedIdsWithName.ofId 3)
    (ViewOK.one 3)

/-- C8: VisibilitySymbols::operator== ignores isPrivate: values identical
in symbolId, kind and names compare equal whatever their isPrivate fields,
and ResolvedVisibilityScope equality therefore cannot distinguish a private
clause from a public one. -/
theorem claim8_eq_ignores_isPrivate (a b : VisibilitySymbols) (sc : Nat)
    (h1 : a.symbolId = b.symbolId) (h2 : a.kind = b.kind)
    (h3 : a.names = b.names) :
    a.beq b = true ∧
    ResolvedVisibilityScope.beq
      (ResolvedVisibilityScope.mk sc [a]) (ResolvedVisibilityScope.mk sc [b])
      = true := by
  have hb : a.beq b = true := by
    simp [VisibilitySymbols.beq, h1, h2, h3]
  exact ⟨hb, by simp [ResolvedVisibilityScope.beq, visListBeq, hb]⟩

/-- C8 witness: claim8_eq_ignores_isPrivate applied to two concrete values
differing only in isPrivate. -/
theorem claim8_witness :
    (VisibilitySymbols.mk 3 VisibilitySymbols.Kind.ONLY_CONTENTS true
        [(1, 2)]).beq
      (VisibilitySymbols.mk 3 VisibilitySymbols.Kind.ONLY_CONTENTS false
        [(1, 2)]) = true ∧
    ResolvedVisibilityScope.beq
      (ResolvedVisibilityScope.mk 9
        [VisibilitySymbols.mk 3 VisibilitySymbols.Kind.ONLY_CONTENTS true
          [(1, 2)]])
      (ResolvedVisibilityScope.mk 9
        [VisibilitySymbols.mk 3 VisibilitySymbols.Kind.ONLY_CONTENTS false
          [(1, 2)]]) = true :=
  claim8_eq_ignores_isPrivate _ _ 9 rfl rfl rfl

/-- C6 counterexample: the public four-argument constructor stores its
arguments without validation, so for each kind the claimed invariant is
violated by a constructible value: an ALL_CONTENTS value with a nonempty
names list, a CONTENTS_EXCEPT value whose pair renames, and a SYMBOL_ONLY
value with two pairs. -/
theorem claim6_counterexample :
    VisibilitySymbols.claimedInvariant
        (VisibilitySymbols.mk 0 VisibilitySymbols.Kind.ALL_CONTENTS true
          [(1, 2)]) = false ∧
    VisibilitySymbols.claimedInvariant
        (VisibilitySymbols.mk 0 VisibilitySymbols.Kind.CONTENTS_EXCEPT true
          [(1, 2)]) = false ∧
    VisibilitySymbols.claimedInvariant
        (VisibilitySymbols.mk 0 VisibilitySymbols.Kind.SYMBOL_ONLY true
          [(1, 1), (2, 2)]) = false := by
  decide

/-- C6 (amended): the VisibilitySymbols constructors enforce no invariant
between kind and names: the four-argument constructor stores every field
verbatim, so a constructed value satisfies the claimed invariant exactly
when its arguments do; the default constructor's value satisfies it. -/
theorem claim6_constructor_stores_verbatim (s : ID)
    (k : VisibilitySymbols.Kind) (p : Bool)
    (ns : List (UniqueString × UniqueString)) :
    (VisibilitySymbols.mk s k p ns).symbolId = s ∧
    (VisibilitySymbols.mk s k p ns).kind = k ∧
    (VisibilitySymbols.mk s k p ns).isPrivate = p ∧
    (VisibilitySymbols.mk s k p ns).names = ns ∧
    VisibilitySymbols.claimedInvariant VisibilitySymbols.defaultValue
      = true :=
  ⟨rfl, rfl, rfl, rfl, rfl⟩
